import Mathlib

/-!
Verification of the Langfuse tracer layer of `langgraph_supervisor`
(`langgraph_supervisor/observability/langfuse.py`), via a shallow
embedding of the Python code.

The embedding has three layers:

* a value-level model of the per-call configuration dict and of the
  wrapped entry points `traced_invoke` / `traced_ainvoke`;
* a store-level model of workflow objects (`Store`), making the
  in-place monkey-patching of `workflow.invoke` / `workflow.ainvoke`
  and object identity observable;
* a heap-level model of configuration dicts (`DictHeap`), making the
  in-place mutation of the caller's config dict (`config["callbacks"] = ...`)
  and Python's `config = config or \x7b\x7d` re-binding observable.

The tracer constructor (`LangfuseSupervisorTracer.__init__` and
`get_langfuse_callback`) is modelled over an abstract outcome of the
external observability backend, with Python exceptions as `Except`.
-/

/-- A callback handler appearing in a configuration's `callbacks` list:
either the Langfuse `CallbackHandler` created by the tracer, or an
arbitrary caller-supplied callback. -/
inductive Handler where
  | langfuse (id : Nat)
  | caller (id : Nat)
deriving DecidableEq

/-- The per-call configuration dict.  The `callbacks` key is modelled
explicitly (`none` = key absent); every other key/value pair of the
dict is kept abstractly in `others`. -/
structure PyDict where
  callbacks : Option (List Handler)
  others : List (String × String)
deriving DecidableEq

/-- A fresh empty dict, the `\x7b\x7d` of `config = config or \x7b\x7d`. -/
def PyDict.empty : PyDict := { callbacks := none, others := [] }

/-- Python truthiness of a dict: a dict is falsy iff it has no keys. -/
def PyDict.isEmpty (d : PyDict) : Bool :=
  d.callbacks.isNone && d.others.isEmpty

/-- Value of the Python expression `config or \x7b\x7d` where `config` is an
optional dict argument defaulting to `None`: `None` and the empty
(falsy) dict are replaced by a fresh empty dict. -/
def pyDictOr (config : Option PyDict) : PyDict :=
  match config with
  | none => PyDict.empty
  | some d => if d.isEmpty then PyDict.empty else d

/-- Type of a workflow entry point (`invoke` or `ainvoke`): a function
from a state and an optional per-call configuration to a result. -/
abbrev Invoke (σ ρ : Type) := σ → Option PyDict → ρ

/-- Embedding of `traced_invoke` (langfuse.py lines 87-97): bind
`config` to `config or \x7b\x7d`, read the existing `callbacks` list
(defaulting to `[]`), overwrite the `callbacks` key with that list plus
the tracer's handler appended, and delegate to the captured original
entry point with the augmented configuration, forwarding its result. -/
def traced_invoke {σ ρ : Type} (h : Handler) (original_invoke : Invoke σ ρ) :
    Invoke σ ρ :=
  fun state config =>
    let config1 := pyDictOr config
    let config_callbacks := config1.callbacks.getD []
    let config2 : PyDict := { config1 with callbacks := some (config_callbacks ++ [h]) }
    original_invoke state (some config2)

/-- Embedding of `traced_ainvoke` (langfuse.py lines 99-109), the
suspend-capable twin of `traced_invoke`; its body is line-for-line the
same augmentation followed by an awaited delegation. -/
def traced_ainvoke {σ ρ : Type} (h : Handler) (original_ainvoke : Invoke σ ρ) :
    Invoke σ ρ :=
  fun state config =>
    let config1 := pyDictOr config
    let config_callbacks := config1.callbacks.getD []
    let config2 : PyDict := { config1 with callbacks := some (config_callbacks ++ [h]) }
    original_ainvoke state (some config2)

/-- The augmented configuration that the traced entry points pass to the
original entry point. -/
def augmentedConfig (h : Handler) (config : Option PyDict) : Option PyDict :=
  some { pyDictOr config with
         callbacks := some ((pyDictOr config).callbacks.getD [] ++ [h]) }

theorem PyDict.eq_empty_of_isEmpty {d : PyDict} (hd : d.isEmpty = true) :
    d = PyDict.empty := by
  cases d with
  | mk cb o =>
    simp only [PyDict.isEmpty, Bool.and_eq_true, Option.isNone_iff_eq_none,
      List.isEmpty_iff] at hd
    simp [PyDict.empty, hd.1, hd.2]

theorem pyDictOr_some (d : PyDict) : pyDictOr (some d) = d := by
  by_cases hd : d.isEmpty = true
  · simp [pyDictOr, hd, (PyDict.eq_empty_of_isEmpty hd).symm]
  · simp [pyDictOr, hd]

theorem traced_invoke_eq {σ ρ : Type} (h : Handler) (f : Invoke σ ρ)
    (s : σ) (c : Option PyDict) :
    traced_invoke h f s c = f s (augmentedConfig h c) := rfl

theorem traced_ainvoke_eq {σ ρ : Type} (h : Handler) (f : Invoke σ ρ)
    (s : σ) (c : Option PyDict) :
    traced_ainvoke h f s c = f s (augmentedConfig h c) := rfl

theorem augmentedConfig_some {h : Handler} {d : PyDict} :
    augmentedConfig h (some d) =
      some { d with callbacks := some (d.callbacks.getD [] ++ [h]) } := by
  simp [augmentedConfig, pyDictOr_some]

theorem augmentedConfig_none {h : Handler} :
    augmentedConfig h none = some { callbacks := some [h], others := [] } := rfl

/-- Claim C2: for every state and every per-call configuration whose
`callbacks` entry is the list `cs`, each traced entry point (blocking
`invoke` and suspend-capable `ainvoke`) calls the original entry point
with a configuration whose `callbacks` list is exactly `cs` followed by
the tracer's handler — caller-supplied callbacks preserved in order and
exactly one handler appended; when the caller passes no configuration,
the original entry point is called with a configuration whose
`callbacks` list is exactly `[h]`. -/
theorem tracer_C2 {σ ρ : Type} (h : Handler) (orig origA : Invoke σ ρ)
    (s : σ) (cfg : PyDict) (cs : List Handler)
    (hcb : cfg.callbacks = some cs) :
    traced_invoke h orig s (some cfg) =
      orig s (some { cfg with callbacks := some (cs ++ [h]) }) ∧
    traced_ainvoke h origA s (some cfg) =
      origA s (some { cfg with callbacks := some (cs ++ [h]) }) ∧
    traced_invoke h orig s none =
      orig s (some { callbacks := some [h], others := [] }) ∧
    traced_ainvoke h origA s none =
      origA s (some { callbacks := some [h], others := [] }) := by
  refine ⟨?_, ?_, rfl, rfl⟩
  · rw [traced_invoke_eq, augmentedConfig_some, hcb]
    simp
  · rw [traced_ainvoke_eq, augmentedConfig_some, hcb]
    simp

/-- Witness for C2 at a concrete input: a config holding one
caller-supplied callback, an observer entry point returning the
configuration it receives. -/
theorem tracer_C2_witness :
    (PyDict.mk (some [Handler.caller 7]) [("tag", "x")]).callbacks =
      some [Handler.caller 7] ∧
    (traced_invoke (Handler.langfuse 0) (fun (_ : Nat) c => c) 3
        (some (PyDict.mk (some [Handler.caller 7]) [("tag", "x")])) =
      (fun (_ : Nat) c => c) 3
        (some { PyDict.mk (some [Handler.caller 7]) [("tag", "x")] with
                callbacks := some ([Handler.caller 7] ++ [Handler.langfuse 0]) }) ∧
    traced_ainvoke (Handler.langfuse 0) (fun (_ : Nat) c => c) 3
        (some (PyDict.mk (some [Handler.caller 7]) [("tag", "x")])) =
      (fun (_ : Nat) c => c) 3
        (some { PyDict.mk (some [Handler.caller 7]) [("tag", "x")] with
                callbacks := some ([Handler.caller 7] ++ [Handler.langfuse 0]) }) ∧
    traced_invoke (Handler.langfuse 0) (fun (_ : Nat) c => c) 3 none =
      (fun (_ : Nat) c => c) 3
        (some { callbacks := some [Handler.langfuse 0], others := [] }) ∧
    traced_ainvoke (Handler.langfuse 0) (fun (_ : Nat) c => c) 3 none =
      (fun (_ : Nat) c => c) 3
        (some { callbacks := some [Handler.langfuse 0], others := [] })) :=
  ⟨rfl, tracer_C2 (Handler.langfuse 0) (fun _ c => c) (fun _ c => c) 3
    (PyDict.mk (some [Handler.caller 7]) [("tag", "x")]) [Handler.caller 7] rfl⟩

/-- A Python exception raised by the delegated workflow invocation. -/
inductive PyErr where
  | exn (msg : String)
deriving DecidableEq

/-- Claim C4: the traced entry points forward the delegated call's
result unmodified (the traced result is exactly the original entry
point's result on the augmented configuration), and any exception
raised by the underlying workflow propagates unmodified — no retry, no
swallowing.  Fallible invocation is modelled as `Except PyErr σ`. -/
theorem tracer_C4 {σ : Type} (h : Handler)
    (orig origA : Invoke σ (Except PyErr σ)) (s : σ) (c : Option PyDict) :
    traced_invoke h orig s c = orig s (augmentedConfig h c) ∧
    traced_ainvoke h origA s c = origA s (augmentedConfig h c) ∧
    (∀ e : PyErr, orig s (augmentedConfig h c) = Except.error e →
      traced_invoke h orig s c = Except.error e) ∧
    (∀ e : PyErr, origA s (augmentedConfig h c) = Except.error e →
      traced_ainvoke h origA s c = Except.error e) ∧
    (∀ v : σ, orig s (augmentedConfig h c) = Except.ok v →
      traced_invoke h orig s c = Except.ok v) ∧
    (∀ v : σ, origA s (augmentedConfig h c) = Except.ok v →
      traced_ainvoke h origA s c = Except.ok v) := by
  refine ⟨rfl, rfl, ?_, ?_, ?_, ?_⟩ <;>
    intro x hx <;> rw [← hx] <;> rfl

/-- Witness for C4 at a concrete input: an entry point that always
raises, wrapped and invoked; the error comes through unmodified. -/
theorem tracer_C4_witness :
    traced_invoke (Handler.langfuse 0)
        (fun (_ : Nat) _ => (Except.error (PyErr.exn "boom") : Except PyErr Nat))
        5 none =
      (fun (_ : Nat) _ => (Except.error (PyErr.exn "boom") : Except PyErr Nat))
        5 (augmentedConfig (Handler.langfuse 0) none) ∧
    traced_invoke (Handler.langfuse 0)
        (fun (_ : Nat) _ => (Except.error (PyErr.exn "boom") : Except PyErr Nat))
        5 none = Except.error (PyErr.exn "boom") :=
  ⟨(tracer_C4 (Handler.langfuse 0)
      (fun _ _ => Except.error (PyErr.exn "boom"))
      (fun _ _ => Except.error (PyErr.exn "boom")) 5 none).1,
   (tracer_C4 (Handler.langfuse 0)
      (fun _ _ => Except.error (PyErr.exn "boom"))
      (fun _ _ => Except.error (PyErr.exn "boom")) 5 none).2.2.1
     (PyErr.exn "boom") rfl⟩

/-- The callbacks-erased view of an optional configuration: every key
except `callbacks`, with an absent configuration read as the empty
dict.  Two configurations with the same view differ at most in their
`callbacks` entry. -/
def othersView (c : Option PyDict) : List (String × String) :=
  (c.getD PyDict.empty).others

theorem othersView_augmentedConfig (h : Handler) (c : Option PyDict) :
    othersView (augmentedConfig h c) = othersView c := by
  cases c with
  | none => rfl
  | some d => simp [othersView, augmentedConfig, pyDictOr_some]

/-- Claim C6: wrapping is transparent.  If the underlying entry point's
output does not depend on the `callbacks` entry of the configuration
(it is a function of the callbacks-erased view only), then for every
state and every configuration the traced entry points return exactly
what the untraced ones return — the only difference is the side channel
carried by the injected callback. -/
theorem tracer_C6 {σ ρ : Type} (h : Handler) (orig origA : Invoke σ ρ)
    (hIndep : ∀ (s : σ) (c c' : Option PyDict),
      othersView c = othersView c' → orig s c = orig s c')
    (hIndepA : ∀ (s : σ) (c c' : Option PyDict),
      othersView c = othersView c' → origA s c = origA s c')
    (s : σ) (c : Option PyDict) :
    traced_invoke h orig s c = orig s c ∧
    traced_ainvoke h origA s c = origA s c := by
  constructor
  · rw [traced_invoke_eq]
    exact hIndep s (augmentedConfig h c) c (othersView_augmentedConfig h c)
  · rw [traced_ainvoke_eq]
    exact hIndepA s (augmentedConfig h c) c (othersView_augmentedConfig h c)

/-- Witness for C6 at a concrete input: an entry point echoing the
state and reading a non-callbacks key; traced and untraced agree. -/
theorem tracer_C6_witness :
    (∀ (s : Nat) (c c' : Option PyDict), othersView c = othersView c' →
      (fun (s : Nat) c => s + (othersView c).length) s c =
      (fun (s : Nat) c => s + (othersView c).length) s c') ∧
    traced_invoke (Handler.langfuse 0)
        (fun (s : Nat) c => s + (othersView c).length) 4
        (some (PyDict.mk none [("k", "v")])) =
      (fun (s : Nat) c => s + (othersView c).length) 4
        (some (PyDict.mk none [("k", "v")])) ∧
    traced_ainvoke (Handler.langfuse 0)
        (fun (s : Nat) c => s + (othersView c).length) 4
        (some (PyDict.mk none [("k", "v")])) =
      (fun (s : Nat) c => s + (othersView c).length) 4
        (some (PyDict.mk none [("k", "v")])) :=
  ⟨fun s c c' hv => by simp [hv],
   tracer_C6 (Handler.langfuse 0)
     (fun s c => s + (othersView c).length)
     (fun s c => s + (othersView c).length)
     (fun s c c' hv => by simp [hv]) (fun s c c' hv => by simp [hv]) 4
     (some (PyDict.mk none [("k", "v")]))⟩

/-- A compiled workflow object: its two invocation entry points, the
attributes `invoke` and `ainvoke` that `trace_workflow` reads and
reassigns. -/
structure Workflow (σ ρ : Type) where
  invoke : Invoke σ ρ
  ainvoke : Invoke σ ρ

/-- A store of workflow objects addressed by reference, making object
identity and in-place attribute reassignment observable. -/
def Store (σ ρ : Type) := Nat → Workflow σ ρ

/-- The tracer object: it holds `callback_handler`, an optional
Langfuse callback handler (`None` when initialization failed). -/
structure LangfuseSupervisorTracer where
  callback_handler : Option Handler

/-- Embedding of `LangfuseSupervisorTracer.trace_workflow`
(langfuse.py lines 69-115) at the object-store level.  If
`callback_handler` is `None`, the workflow reference is returned
unchanged and the store is untouched.  Otherwise the original `invoke`
and `ainvoke` attributes are captured, the workflow object at the given
reference has both attributes reassigned to the traced closures, and
the same reference is returned. -/
def trace_workflow {σ ρ : Type} (t : LangfuseSupervisorTracer)
    (ref : Nat) (store : Store σ ρ) : Nat × Store σ ρ :=
  match t.callback_handler with
  | none => (ref, store)
  | some h =>
    let w := store ref
    let w' : Workflow σ ρ :=
      { invoke := traced_invoke h w.invoke
        ainvoke := traced_ainvoke h w.ainvoke }
    (ref, fun r => if r = ref then w' else store r)

/-- Claim C1: when the tracer's handle is absent, `trace_workflow`
returns the very workflow passed in, with the store unchanged, and
invoking the returned workflow on any state and config yields output
identical to invoking the unwrapped workflow on the same input. -/
theorem tracer_C1 {σ ρ : Type} (t : LangfuseSupervisorTracer)
    (ht : t.callback_handler = none) (ref : Nat) (store : Store σ ρ) :
    trace_workflow t ref store = (ref, store) ∧
    (∀ (s : σ) (c : Option PyDict),
      ((trace_workflow t ref store).2 (trace_workflow t ref store).1).invoke s c =
        (store ref).invoke s c ∧
      ((trace_workflow t ref store).2 (trace_workflow t ref store).1).ainvoke s c =
        (store ref).ainvoke s c) := by
  have hpass : trace_workflow t ref store = (ref, store) := by
    simp [trace_workflow, ht]
  exact ⟨hpass, fun s c => by rw [hpass]; exact ⟨rfl, rfl⟩⟩

/-- Witness for C1 at a concrete input: a no-handle tracer and a
one-workflow store. -/
theorem tracer_C1_witness :
    (LangfuseSupervisorTracer.mk none).callback_handler = none ∧
    (trace_workflow (LangfuseSupervisorTracer.mk none) 0
        (fun _ => Workflow.mk (fun (s : Nat) _ => s) (fun s _ => s)) =
      (0, fun _ => Workflow.mk (fun (s : Nat) _ => s) (fun s _ => s)) ∧
    ∀ (s : Nat) (c : Option PyDict),
      ((trace_workflow (LangfuseSupervisorTracer.mk none) 0
          (fun _ => Workflow.mk (fun (s : Nat) _ => s) (fun s _ => s))).2
        (trace_workflow (LangfuseSupervisorTracer.mk none) 0
          (fun _ => Workflow.mk (fun (s : Nat) _ => s) (fun s _ => s))).1).invoke s c =
        ((fun (_ : Nat) => Workflow.mk (fun (s : Nat) _ => s) (fun s _ => s)) 0).invoke s c ∧
      ((trace_workflow (LangfuseSupervisorTracer.mk none) 0
          (fun _ => Workflow.mk (fun (s : Nat) _ => s) (fun s _ => s))).2
        (trace_workflow (LangfuseSupervisorTracer.mk none) 0
          (fun _ => Workflow.mk (fun (s : Nat) _ => s) (fun s _ => s))).1).ainvoke s c =
        ((fun (_ : Nat) => Workflow.mk (fun (s : Nat) _ => s) (fun s _ => s)) 0).ainvoke s c) :=
  ⟨rfl, tracer_C1 (LangfuseSupervisorTracer.mk none) rfl 0
    (fun _ => Workflow.mk (fun s _ => s) (fun s _ => s))⟩

/-- Claim C9 (implicit): when the handle is present, `trace_workflow`
mutates its argument in place — it reassigns the `invoke` and `ainvoke`
attributes of the very workflow object passed in to the traced closures
over the original attributes, returns that same object (identity), and
leaves every other object in the store untouched; afterwards the object
reached through any reference to that workflow exposes only the traced
entry points. -/
theorem tracer_C9 {σ ρ : Type} (t : LangfuseSupervisorTracer) (h : Handler)
    (ht : t.callback_handler = some h) (ref : Nat) (store : Store σ ρ) :
    (trace_workflow t ref store).1 = ref ∧
    ((trace_workflow t ref store).2 ref).invoke =
      traced_invoke h (store ref).invoke ∧
    ((trace_workflow t ref store).2 ref).ainvoke =
      traced_ainvoke h (store ref).ainvoke ∧
    (∀ r : Nat, r ≠ ref → (trace_workflow t ref store).2 r = store r) := by
  refine ⟨?_, ?_, ?_, ?_⟩ <;> simp [trace_workflow, ht]
  intro r hr
  simp [hr]

/-- Witness for C9 at a concrete input. -/
theorem tracer_C9_witness :
    (LangfuseSupervisorTracer.mk (some (Handler.langfuse 0))).callback_handler =
      some (Handler.langfuse 0) ∧
    ((trace_workflow (LangfuseSupervisorTracer.mk (some (Handler.langfuse 0))) 5
        (fun _ => Workflow.mk (fun (s : Nat) _ => s) (fun s _ => s))).1 = 5 ∧
    ((trace_workflow (LangfuseSupervisorTracer.mk (some (Handler.langfuse 0))) 5
        (fun _ => Workflow.mk (fun (s : Nat) _ => s) (fun s _ => s))).2 5).invoke =
      traced_invoke (Handler.langfuse 0)
        (((fun (_ : Nat) => Workflow.mk (fun (s : Nat) _ => s) (fun s _ => s)) 5).invoke) ∧
    ((trace_workflow (LangfuseSupervisorTracer.mk (some (Handler.langfuse 0))) 5
        (fun _ => Workflow.mk (fun (s : Nat) _ => s) (fun s _ => s))).2 5).ainvoke =
      traced_ainvoke (Handler.langfuse 0)
        (((fun (_ : Nat) => Workflow.mk (fun (s : Nat) _ => s) (fun s _ => s)) 5).ainvoke) ∧
    (∀ r : Nat, r ≠ 5 →
      (trace_workflow (LangfuseSupervisorTracer.mk (some (Handler.langfuse 0))) 5
        (fun _ => Workflow.mk (fun (s : Nat) _ => s) (fun s _ => s))).2 r =
        (fun (_ : Nat) => Workflow.mk (fun (s : Nat) _ => s) (fun s _ => s)) r)) :=
  ⟨rfl, tracer_C9 (LangfuseSupervisorTracer.mk (some (Handler.langfuse 0)))
    (Handler.langfuse 0) rfl 5 (fun _ => Workflow.mk (fun s _ => s) (fun s _ => s))⟩

/-- An entry point that reports the length of the `callbacks` list it
receives, used to observe what configuration reaches the innermost
(original) entry point. -/
def lenObserver : Invoke Nat Nat :=
  fun _ c => ((c.getD PyDict.empty).callbacks.getD []).length

/-- Counterexample to claim C7 as stated.  With a present handle,
`trace_workflow` does not produce a workflow object distinct from its
argument with the original left unmodified: at a concrete store holding
`lenObserver` at reference 5, it returns the very same reference 5, and
the workflow object now stored at 5 behaves differently from the
original (its `invoke` on no config yields 1, the original yields 0) —
so the original object has been modified in place. -/
theorem tracer_C7_counterexample :
    (trace_workflow (LangfuseSupervisorTracer.mk (some (Handler.langfuse 0))) 5
        (fun _ => Workflow.mk lenObserver lenObserver)).1 = 5 ∧
    ((trace_workflow (LangfuseSupervisorTracer.mk (some (Handler.langfuse 0))) 5
        (fun _ => Workflow.mk lenObserver lenObserver)).2 5).invoke 3 none ≠
      ((fun (_ : Nat) => Workflow.mk lenObserver lenObserver) 5).invoke 3 none := by
  constructor
  · rfl
  · decide

/-- Claim C7 (amended): when the handle is present, `trace_workflow(w)`
returns the same workflow object `w` — not a new one — whose two
invocation entry points (blocking `invoke` and suspend-capable
`ainvoke`) have been reassigned in place to wrapped versions delegating
to the original entry points; every other object is untouched. -/
theorem tracer_C7_amended {σ ρ : Type} (t : LangfuseSupervisorTracer)
    (h : Handler) (ht : t.callback_handler = some h) (ref : Nat)
    (store : Store σ ρ) :
    trace_workflow t ref store =
      (ref, fun r => if r = ref then
          Workflow.mk (traced_invoke h (store ref).invoke)
            (traced_ainvoke h (store ref).ainvoke)
        else store r) := by
  simp [trace_workflow, ht]

/-- Witness for the amended C7 at a concrete input. -/
theorem tracer_C7_witness :
    (LangfuseSupervisorTracer.mk (some (Handler.langfuse 0))).callback_handler =
      some (Handler.langfuse 0) ∧
    trace_workflow (LangfuseSupervisorTracer.mk (some (Handler.langfuse 0))) 5
        (fun _ => Workflow.mk lenObserver lenObserver) =
      (5, fun r => if r = 5 then
          Workflow.mk
            (traced_invoke (Handler.langfuse 0)
              (((fun (_ : Nat) => Workflow.mk lenObserver lenObserver) 5).invoke))
            (traced_ainvoke (Handler.langfuse 0)
              (((fun (_ : Nat) => Workflow.mk lenObserver lenObserver) 5).ainvoke))
        else (fun (_ : Nat) => Workflow.mk lenObserver lenObserver) r) :=
  ⟨rfl, tracer_C7_amended (LangfuseSupervisorTracer.mk (some (Handler.langfuse 0)))
    (Handler.langfuse 0) rfl 5 (fun _ => Workflow.mk lenObserver lenObserver)⟩

/-- `n`-fold wrapping of a blocking entry point by `traced_invoke`. -/
def wrapN {σ ρ : Type} (h : Handler) : Nat → Invoke σ ρ → Invoke σ ρ
  | 0, f => f
  | n + 1, f => traced_invoke h (wrapN h n f)

/-- `n`-fold wrapping of a suspend-capable entry point by
`traced_ainvoke`. -/
def wrapAN {σ ρ : Type} (h : Handler) : Nat → Invoke σ ρ → Invoke σ ρ
  | 0, f => f
  | n + 1, f => traced_ainvoke h (wrapAN h n f)

/-- `n`-fold application of `trace_workflow` to the same workflow. -/
def traceN {σ ρ : Type} (t : LangfuseSupervisorTracer) :
    Nat → Nat → Store σ ρ → Nat × Store σ ρ
  | 0, ref, store => (ref, store)
  | n + 1, ref, store =>
      trace_workflow t (traceN t n ref store).1 (traceN t n ref store).2

theorem trace_workflow_fst {σ ρ : Type} (t : LangfuseSupervisorTracer)
    (ref : Nat) (store : Store σ ρ) :
    (trace_workflow t ref store).1 = ref := by
  obtain ⟨ch⟩ := t
  cases ch <;> rfl

theorem traceN_fst {σ ρ : Type} (t : LangfuseSupervisorTracer) (n : Nat)
    (ref : Nat) (store : Store σ ρ) :
    (traceN t n ref store).1 = ref := by
  induction n with
  | zero => rfl
  | succ n ih => rw [traceN, trace_workflow_fst, ih]

theorem traceN_entry {σ ρ : Type} (t : LangfuseSupervisorTracer) (h : Handler)
    (ht : t.callback_handler = some h) (n : Nat) (ref : Nat)
    (store : Store σ ρ) :
    ((traceN t n ref store).2 ref).invoke = wrapN h n (store ref).invoke ∧
    ((traceN t n ref store).2 ref).ainvoke = wrapAN h n (store ref).ainvoke := by
  induction n with
  | zero => exact ⟨rfl, rfl⟩
  | succ n ih =>
    rw [traceN, traceN_fst]
    constructor
    · simp only [trace_workflow, ht]
      simp [wrapN, ih.1]
    · simp only [trace_workflow, ht]
      simp [wrapAN, ih.2]

theorem wrapN_lenObserver (h : Handler) (n : Nat) (s : Nat) (cfg : PyDict)
    (cs : List Handler) (hcb : cfg.callbacks = some cs) :
    wrapN h n lenObserver s (some cfg) = cs.length + n := by
  induction n generalizing cfg cs with
  | zero => simp [wrapN, lenObserver, hcb]
  | succ n ih =>
    rw [wrapN, traced_invoke_eq, augmentedConfig_some]
    have hnext := ih { cfg with callbacks := some (cfg.callbacks.getD [] ++ [h]) }
      (cfg.callbacks.getD [] ++ [h]) rfl
    rw [hnext, hcb]
    simp
    omega

theorem wrapAN_eq_wrapN {σ ρ : Type} (h : Handler) (n : Nat) (f : Invoke σ ρ) :
    wrapAN h n f = wrapN h n f := by
  induction n with
  | zero => rfl
  | succ n ih => rw [wrapAN, wrapN, ih]; rfl

/-- Claim C5: wrapping is idempotent up to linear callback growth.
Applying `trace_workflow` `n` times with a present handle to a workflow
whose entry points record the `callbacks` list they receive, and then
invoking either entry point with a configuration whose `callbacks` list
has length `k`, makes the innermost entry point receive a `callbacks`
list of length exactly `k + n` — growth is linear in the number of
wraps, not exponential. -/
theorem tracer_C5 (t : LangfuseSupervisorTracer) (h : Handler)
    (ht : t.callback_handler = some h) (n : Nat) (ref : Nat)
    (store : Store Nat Nat)
    (hw : store ref = Workflow.mk lenObserver lenObserver)
    (s : Nat) (cfg : PyDict) (cs : List Handler) (k : Nat)
    (hcb : cfg.callbacks = some cs) (hk : cs.length = k) :
    ((traceN t n ref store).2 ref).invoke s (some cfg) = k + n ∧
    ((traceN t n ref store).2 ref).ainvoke s (some cfg) = k + n := by
  have he := traceN_entry t h ht n ref store
  constructor
  · rw [he.1, hw]
    rw [show (Workflow.mk lenObserver lenObserver).invoke = lenObserver from rfl]
    rw [wrapN_lenObserver h n s cfg cs hcb, hk]
  · rw [he.2, hw]
    rw [show (Workflow.mk lenObserver lenObserver).ainvoke = lenObserver from rfl]
    rw [wrapAN_eq_wrapN, wrapN_lenObserver h n s cfg cs hcb, hk]

/-- Witness for C5 at a concrete input: wrap twice (`n = 2`) with one
caller-supplied callback (`k = 1`); the innermost entry point sees a
`callbacks` list of length 3. -/
theorem tracer_C5_witness :
    (LangfuseSupervisorTracer.mk (some (Handler.langfuse 0))).callback_handler =
      some (Handler.langfuse 0) ∧
    (PyDict.mk (some [Handler.caller 1]) []).callbacks = some [Handler.caller 1] ∧
    (((traceN (LangfuseSupervisorTracer.mk (some (Handler.langfuse 0))) 2 0
        (fun _ => Workflow.mk lenObserver lenObserver)).2 0).invoke 9
        (some (PyDict.mk (some [Handler.caller 1]) [])) = 1 + 2 ∧
    ((traceN (LangfuseSupervisorTracer.mk (some (Handler.langfuse 0))) 2 0
        (fun _ => Workflow.mk lenObserver lenObserver)).2 0).ainvoke 9
        (some (PyDict.mk (some [Handler.caller 1]) [])) = 1 + 2) :=
  ⟨rfl, rfl, tracer_C5 (LangfuseSupervisorTracer.mk (some (Handler.langfuse 0)))
    (Handler.langfuse 0) rfl 2 0 (fun _ => Workflow.mk lenObserver lenObserver)
    rfl 9 (PyDict.mk (some [Handler.caller 1]) []) [Handler.caller 1] 1 rfl rfl⟩

/-- A heap of configuration dicts addressed by reference, making the
in-place mutation of the caller's config dict observable. -/
def DictHeap := Nat → PyDict

/-- Update one dict in the heap. -/
def heapUpdate (heap : DictHeap) (r : Nat) (d : PyDict) : DictHeap :=
  fun n => if n = r then d else heap n

/-- Embedding of `traced_invoke` at the heap level, following Python
reference semantics.  `config = config or \x7b\x7d` re-binds the local name
to a freshly allocated empty dict (at address `fresh`) when the caller
passed `None` or a falsy (empty) dict, and keeps the caller's dict
object otherwise; `config["callbacks"] = [*config_callbacks, handler]`
then mutates whichever dict the name is bound to; the original entry
point is called with that dict. -/
def traced_invoke_heap {σ ρ : Type} (h : Handler)
    (original_invoke : σ → PyDict → ρ) (state : σ) (config : Option Nat)
    (heap : DictHeap) (fresh : Nat) : ρ × DictHeap :=
  let useFresh : Bool :=
    match config with
    | none => true
    | some r0 => (heap r0).isEmpty
  let r : Nat :=
    match config with
    | none => fresh
    | some r0 => if (heap r0).isEmpty then fresh else r0
  let heap1 := if useFresh then heapUpdate heap fresh PyDict.empty else heap
  let d := heap1 r
  let config_callbacks := d.callbacks.getD []
  let d' : PyDict := { d with callbacks := some (config_callbacks ++ [h]) }
  let heap2 := heapUpdate heap1 r d'
  (original_invoke state d', heap2)

/-- Embedding of `traced_ainvoke` at the heap level; its body performs
the identical re-binding, mutation, and delegation. -/
def traced_ainvoke_heap {σ ρ : Type} (h : Handler)
    (original_ainvoke : σ → PyDict → ρ) (state : σ) (config : Option Nat)
    (heap : DictHeap) (fresh : Nat) : ρ × DictHeap :=
  let useFresh : Bool :=
    match config with
    | none => true
    | some r0 => (heap r0).isEmpty
  let r : Nat :=
    match config with
    | none => fresh
    | some r0 => if (heap r0).isEmpty then fresh else r0
  let heap1 := if useFresh then heapUpdate heap fresh PyDict.empty else heap
  let d := heap1 r
  let config_callbacks := d.callbacks.getD []
  let d' : PyDict := { d with callbacks := some (config_callbacks ++ [h]) }
  let heap2 := heapUpdate heap1 r d'
  (original_ainvoke state d', heap2)

/-- Counterexample to claim C10 as stated.  Not every caller-supplied
config dict is mutated in place: if the caller passes an empty dict
(falsy in Python), `config = config or \x7b\x7d` re-binds to a fresh dict,
so after the invocation the caller's own dict is unchanged and does not
contain the tracer's callback handle. -/
theorem tracer_C10_counterexample :
    (traced_invoke_heap (Handler.langfuse 0) (fun (s : Nat) _ => s) 7 (some 0)
        (fun _ => PyDict.empty) 1).2 0 = PyDict.empty ∧
    Handler.langfuse 0 ∉
      (((traced_invoke_heap (Handler.langfuse 0) (fun (s : Nat) _ => s) 7
          (some 0) (fun _ => PyDict.empty) 1).2 0).callbacks.getD []) := by
  constructor <;> decide

/-- Claim C10 (amended): for every caller-supplied configuration dict
that is non-empty (truthy), the traced entry points mutate that dict in
place — its `callbacks` key is set (or overwritten) to the augmented
list ending in the tracer's handler, all its other keys are left
unchanged, and every other dict in the heap is untouched; an empty
(falsy) caller dict is instead replaced by a fresh dict and left
unmodified. -/
theorem tracer_C10_amended {σ ρ : Type} (h : Handler)
    (orig origA : σ → PyDict → ρ) (s : σ) (r fresh : Nat) (heap : DictHeap)
    (hne : (heap r).isEmpty = false) :
    (traced_invoke_heap h orig s (some r) heap fresh).2 r =
      { heap r with callbacks := some ((heap r).callbacks.getD [] ++ [h]) } ∧
    ((traced_invoke_heap h orig s (some r) heap fresh).2 r).others =
      (heap r).others ∧
    (∀ r2 : Nat, r2 ≠ r →
      (traced_invoke_heap h orig s (some r) heap fresh).2 r2 = heap r2) ∧
    (traced_ainvoke_heap h origA s (some r) heap fresh).2 r =
      { heap r with callbacks := some ((heap r).callbacks.getD [] ++ [h]) } ∧
    ((traced_ainvoke_heap h origA s (some r) heap fresh).2 r).others =
      (heap r).others ∧
    (∀ r2 : Nat, r2 ≠ r →
      (traced_ainvoke_heap h origA s (some r) heap fresh).2 r2 = heap r2) := by
  refine ⟨?_, ?_, ?_, ?_, ?_, ?_⟩ <;>
    simp [traced_invoke_heap, traced_ainvoke_heap, hne, heapUpdate]
  · intro r2 hr2; simp [hr2]
  · intro r2 hr2; simp [hr2]

/-- Witness for the amended C10 at a concrete input: a non-empty caller
dict holding one foreign key; after invocation it holds the handler in
`callbacks` and its other key survives, while a neighbouring dict is
untouched. -/
theorem tracer_C10_witness :
    ((fun (_ : Nat) => PyDict.mk none [("k", "v")]) 0).isEmpty = false ∧
    ((traced_invoke_heap (Handler.langfuse 0) (fun (s : Nat) _ => s) 7 (some 0)
        (fun _ => PyDict.mk none [("k", "v")]) 1).2 0 =
      { (fun (_ : Nat) => PyDict.mk none [("k", "v")]) 0 with
        callbacks := some
          (((fun (_ : Nat) => PyDict.mk none [("k", "v")]) 0).callbacks.getD []
            ++ [Handler.langfuse 0]) } ∧
    ((traced_invoke_heap (Handler.langfuse 0) (fun (s : Nat) _ => s) 7 (some 0)
        (fun _ => PyDict.mk none [("k", "v")]) 1).2 0).others =
      ((fun (_ : Nat) => PyDict.mk none [("k", "v")]) 0).others ∧
    (∀ r2 : Nat, r2 ≠ 0 →
      (traced_invoke_heap (Handler.langfuse 0) (fun (s : Nat) _ => s) 7 (some 0)
        (fun _ => PyDict.mk none [("k", "v")]) 1).2 r2 =
        (fun (_ : Nat) => PyDict.mk none [("k", "v")]) r2) ∧
    (traced_ainvoke_heap (Handler.langfuse 0) (fun (s : Nat) _ => s) 7 (some 0)
        (fun _ => PyDict.mk none [("k", "v")]) 1).2 0 =
      { (fun (_ : Nat) => PyDict.mk none [("k", "v")]) 0 with
        callbacks := some
          (((fun (_ : Nat) => PyDict.mk none [("k", "v")]) 0).callbacks.getD []
            ++ [Handler.langfuse 0]) } ∧
    ((traced_ainvoke_heap (Handler.langfuse 0) (fun (s : Nat) _ => s) 7 (some 0)
        (fun _ => PyDict.mk none [("k", "v")]) 1).2 0).others =
      ((fun (_ : Nat) => PyDict.mk none [("k", "v")]) 0).others ∧
    (∀ r2 : Nat, r2 ≠ 0 →
      (traced_ainvoke_heap (Handler.langfuse 0) (fun (s : Nat) _ => s) 7 (some 0)
        (fun _ => PyDict.mk none [("k", "v")]) 1).2 r2 =
        (fun (_ : Nat) => PyDict.mk none [("k", "v")]) r2)) :=
  ⟨rfl, tracer_C10_amended (Handler.langfuse 0) (fun s _ => s) (fun s _ => s) 7 0 1
    (fun _ => PyDict.mk none [("k", "v")]) rfl⟩

/-- Outcome of the external observability backend during client
initialization: success, failed `auth_check`, connection failure, or
any other unexpected exception. -/
inductive BackendOutcome where
  | ok
  | authFailed
  | connectFailure (msg : String)
  | unexpectedFailure (msg : String)
deriving DecidableEq

/-- A Python exception escaping client initialization: an `httpx`
`ConnectError` or any other `Exception`. -/
inductive PyExn where
  | connectError (msg : String)
  | otherExn (msg : String)
deriving DecidableEq

/-- Log levels used by the module's logger. -/
inductive LogLevel where
  | info
  | warning
deriving DecidableEq

/-- The body of the `try` block of `get_langfuse_callback`
(langfuse.py lines 19-28): `get_client()` followed by `auth_check()`;
on success return a fresh `CallbackHandler` and log info, on a failed
`auth_check` log a warning and return `None`, otherwise the raised
exception escapes the block. -/
def get_langfuse_callback_body (o : BackendOutcome) :
    Except PyExn (Option Handler × List LogLevel) :=
  match o with
  | BackendOutcome.ok => Except.ok (some (Handler.langfuse 0), [LogLevel.info])
  | BackendOutcome.authFailed => Except.ok (none, [LogLevel.warning])
  | BackendOutcome.connectFailure m => Except.error (PyExn.connectError m)
  | BackendOutcome.unexpectedFailure m => Except.error (PyExn.otherExn m)

/-- Embedding of `get_langfuse_callback` (langfuse.py lines 13-35): the
`try` body with its two `except` clauses, `except ConnectError` and
`except Exception`, each logging a warning and returning `None`. -/
def get_langfuse_callback (o : BackendOutcome) :
    Except PyExn (Option Handler × List LogLevel) :=
  match get_langfuse_callback_body o with
  | Except.ok r => Except.ok r
  | Except.error (PyExn.connectError _) => Except.ok (none, [LogLevel.warning])
  | Except.error (PyExn.otherExn _) => Except.ok (none, [LogLevel.warning])

/-- The process environment restricted to the three variables the
tracer writes: `LANGFUSE_PUBLIC_KEY`, `LANGFUSE_SECRET_KEY`,
`LANGFUSE_HOST` (`none` = unset). -/
structure Env where
  publicKey : Option String
  secretKey : Option String
  hostUrl : Option String
deriving DecidableEq

/-- The constructor's optional arguments. -/
structure TracerArgs where
  public_key : Option String
  secret_key : Option String
  host : Option String
deriving DecidableEq

/-- One `if arg: os.environ[var] = arg` statement: the environment
entry is overwritten only when the argument is truthy — present and
non-empty. -/
def setIfTruthy (arg : Option String) (cur : Option String) : Option String :=
  match arg with
  | none => cur
  | some s => if s = "" then cur else some s

/-- The environment after the three conditional writes at the top of
`LangfuseSupervisorTracer.__init__` (langfuse.py lines 54-59). -/
def envAfterInit (a : TracerArgs) (env : Env) : Env :=
  { publicKey := setIfTruthy a.public_key env.publicKey
    secretKey := setIfTruthy a.secret_key env.secretKey
    hostUrl := setIfTruthy a.host env.hostUrl }

/-- The credential configuration the observability client is
initialized from: `get_client()` reads the environment as it stands
when called. -/
structure ClientConfig where
  publicKey : Option String
  secretKey : Option String
  hostUrl : Option String
deriving DecidableEq

/-- The client configuration read from an environment. -/
def clientConfigOf (env : Env) : ClientConfig :=
  { publicKey := env.publicKey
    secretKey := env.secretKey
    hostUrl := env.hostUrl }

/-- Embedding of `LangfuseSupervisorTracer.__init__` (langfuse.py
lines 40-68): write the truthy arguments into the environment, call
`get_langfuse_callback`, store its result in `callback_handler`, and
log a warning when the handler is absent, info when present.  A raised
exception would propagate (the `error` branch), but
`get_langfuse_callback` never raises. -/
def LangfuseSupervisorTracer.init (a : TracerArgs) (env : Env)
    (o : BackendOutcome) :
    Except PyExn (LangfuseSupervisorTracer × Env × List LogLevel) :=
  let env1 := envAfterInit a env
  match get_langfuse_callback o with
  | Except.ok (ch, log) =>
      Except.ok ({ callback_handler := ch }, env1,
        log ++ [match ch with
                | none => LogLevel.warning
                | some _ => LogLevel.info])
  | Except.error e => Except.error e

/-- Claim C3: constructing `LangfuseSupervisorTracer` never raises, for
every outcome of the observability backend.  On connection failure,
failed `auth_check`, or any unexpected exception, construction
completes normally, a warning is logged, and the tracer holds no
callback handle; on success it holds a ready handle. -/
theorem tracer_C3 (a : TracerArgs) (env : Env) (o : BackendOutcome) :
    ∃ (t : LangfuseSupervisorTracer) (env' : Env) (log : List LogLevel),
      LangfuseSupervisorTracer.init a env o = Except.ok (t, env', log) ∧
      (o = BackendOutcome.ok → t.callback_handler = some (Handler.langfuse 0)) ∧
      (o ≠ BackendOutcome.ok →
        t.callback_handler = none ∧ LogLevel.warning ∈ log) := by
  cases o with
  | ok =>
      exact ⟨⟨some (Handler.langfuse 0)⟩, envAfterInit a env,
        [LogLevel.info, LogLevel.info], rfl, fun _ => rfl,
        fun hne => absurd rfl hne⟩
  | authFailed =>
      refine ⟨⟨none⟩, envAfterInit a env, [LogLevel.warning, LogLevel.warning],
        rfl, ?_, fun _ => ⟨rfl, by simp⟩⟩
      intro heq
      exact nomatch heq
  | connectFailure m =>
      refine ⟨⟨none⟩, envAfterInit a env, [LogLevel.warning, LogLevel.warning],
        rfl, ?_, fun _ => ⟨rfl, by simp⟩⟩
      intro heq
      exact nomatch heq
  | unexpectedFailure m =>
      refine ⟨⟨none⟩, envAfterInit a env, [LogLevel.warning, LogLevel.warning],
        rfl, ?_, fun _ => ⟨rfl, by simp⟩⟩
      intro heq
      exact nomatch heq

/-- Witness for C3 at a concrete input: an unreachable backend. -/
theorem tracer_C3_witness :
    ∃ (t : LangfuseSupervisorTracer) (env' : Env) (log : List LogLevel),
      LangfuseSupervisorTracer.init (TracerArgs.mk none none none)
          (Env.mk none none none) (BackendOutcome.connectFailure "net down") =
        Except.ok (t, env', log) ∧
      (BackendOutcome.connectFailure "net down" = BackendOutcome.ok →
        t.callback_handler = some (Handler.langfuse 0)) ∧
      (BackendOutcome.connectFailure "net down" ≠ BackendOutcome.ok →
        t.callback_handler = none ∧ LogLevel.warning ∈ log) :=
  tracer_C3 (TracerArgs.mk none none none) (Env.mk none none none)
    (BackendOutcome.connectFailure "net down")

/-- Counterexample to claim C8 as stated.  Quantified over all non-None
constructor arguments, the claim fails: with the explicit (non-None but
empty, hence falsy) arguments `""` and pre-existing environment values,
`__init__` leaves the environment values in place, so the client is
initialized from the environment, not from the explicitly supplied
values. -/
theorem tracer_C8_counterexample :
    LangfuseSupervisorTracer.init (TracerArgs.mk (some "") (some "") (some ""))
        (Env.mk (some "env-pk") (some "env-sk") (some "env-host"))
        BackendOutcome.ok =
      Except.ok (LangfuseSupervisorTracer.mk (some (Handler.langfuse 0)),
        Env.mk (some "env-pk") (some "env-sk") (some "env-host"),
        [LogLevel.info, LogLevel.info]) ∧
    clientConfigOf (Env.mk (some "env-pk") (some "env-sk") (some "env-host")) ≠
      ClientConfig.mk (some "") (some "") (some "") := by
  constructor
  · rfl
  · decide

/-- Claim C8 (amended): explicit constructor arguments take precedence
over environment-sourced configuration when they are truthy (non-empty
strings): for every environment and every non-empty `public_key`,
`secret_key`, `host`, the client is initialized from the explicitly
supplied values; an empty-string argument is falsy and ignored, leaving
the environment value in force. -/
theorem tracer_C8_amended (env : Env) (pk sk hs : String) (o : BackendOutcome)
    (hpk : pk ≠ "") (hsk : sk ≠ "") (hhs : hs ≠ "") :
    ∃ (t : LangfuseSupervisorTracer) (log : List LogLevel),
      LangfuseSupervisorTracer.init (TracerArgs.mk (some pk) (some sk) (some hs))
          env o =
        Except.ok (t, envAfterInit (TracerArgs.mk (some pk) (some sk) (some hs)) env,
          log) ∧
      clientConfigOf
          (envAfterInit (TracerArgs.mk (some pk) (some sk) (some hs)) env) =
        ClientConfig.mk (some pk) (some sk) (some hs) := by
  have hcfg : clientConfigOf
      (envAfterInit (TracerArgs.mk (some pk) (some sk) (some hs)) env) =
      ClientConfig.mk (some pk) (some sk) (some hs) := by
    simp [clientConfigOf, envAfterInit, setIfTruthy, hpk, hsk, hhs]
  cases o with
  | ok => exact ⟨⟨some (Handler.langfuse 0)⟩, [LogLevel.info, LogLevel.info],
      rfl, hcfg⟩
  | authFailed => exact ⟨⟨none⟩, [LogLevel.warning, LogLevel.warning], rfl, hcfg⟩
  | connectFailure m =>
      exact ⟨⟨none⟩, [LogLevel.warning, LogLevel.warning], rfl, hcfg⟩
  | unexpectedFailure m =>
      exact ⟨⟨none⟩, [LogLevel.warning, LogLevel.warning], rfl, hcfg⟩

/-- Witness for the amended C8 at a concrete input. -/
theorem tracer_C8_witness :
    "pk" ≠ "" ∧ "sk" ≠ "" ∧ "hh" ≠ "" ∧
    (∃ (t : LangfuseSupervisorTracer) (log : List LogLevel),
      LangfuseSupervisorTracer.init
          (TracerArgs.mk (some "pk") (some "sk") (some "hh"))
          (Env.mk (some "env-pk") none (some "env-host")) BackendOutcome.ok =
        Except.ok (t,
          envAfterInit (TracerArgs.mk (some "pk") (some "sk") (some "hh"))
            (Env.mk (some "env-pk") none (some "env-host")), log) ∧
      clientConfigOf
          (envAfterInit (TracerArgs.mk (some "pk") (some "sk") (some "hh"))
            (Env.mk (some "env-pk") none (some "env-host"))) =
        ClientConfig.mk (some "pk") (some "sk") (some "hh")) :=
  ⟨by decide, by decide, by decide,
    tracer_C8_amended (Env.mk (some "env-pk") none (some "env-host"))
      "pk" "sk" "hh" BackendOutcome.ok (by decide) (by decide) (by decide)⟩
